import Mathlib

/-!
Verification development for the frontend-Neura repository.

The definitions below are shallow embeddings of the client-side logic:
the insight-generation status poller (`src/components/InsightGenerationModal.tsx`),
the HTTP client (`apiRequest`), the per-domain cache stores
(settings / overview / health-score / insights / admin), and the optimistic
insight mutation handlers of the overview page.  Timestamps are modelled as
integer milliseconds (the value of `new Date(s).getTime()`), and the
single-threaded event loop is modelled by explicit state passing: each
asynchronous handler is a pure function from its inputs (refs, environment
responses) to the state updates and timer actions it performs.
-/

namespace Neura

/- ## Status poller: src/components/InsightGenerationModal.tsx -/

/-- The `sync_status` field of a status snapshot. -/
inductive SyncStatus
  | IDLE
  | IN_PROGRESS
  | COMPLETED
  | FAILED
deriving DecidableEq, Repr

/-- The `sync_step` field of a status snapshot. -/
inductive SyncStep
  | CONNECTING
  | IMPORTING
  | CALCULATING
  | GENERATING_INSIGHTS
  | COMPLETED
deriving DecidableEq, Repr

/-- A status snapshot (`SyncStatusResponse` in the source); `updated_at` is the
millisecond value of the ISO timestamp (`new Date(response.updated_at).getTime()`),
`none` when the field is null. -/
structure SyncStatusResponse where
  sync_status : SyncStatus
  sync_step : Option SyncStep
  last_sync_error : Option String
  updated_at : Option Int
deriving DecidableEq, Repr

/-- The timer action `pollStatus` takes after handling one poll outcome:
`setTimeout(pollStatus, interval)`, `setTimeout(<completion callback>, delay)`,
or no new timer (the FAILED branch). -/
inductive PollAction
  | continuePolling (interval : Nat)
  | scheduleComplete (delay : Nat)
  | stopPolling
deriving DecidableEq, Repr

/-- The effect of handling one poll outcome: the snapshot passed to `setStatus`
(if any), the value of `pollCounterRef` afterwards, and the timer action. -/
structure PollStep where
  displayed : Option SyncStatusResponse
  counter : Nat
  action : PollAction
deriving DecidableEq, Repr

/-- The adaptive interval: `pollCounterRef.current < 3 ? 2000 : 10000`. -/
def adaptiveInterval (counter : Nat) : Nat :=
  if counter < 3 then 2000 else 10000

/-- The completion-freshness gate (lines 101-111 of the modal):
`statusUpdatedAt >= triggerTimestampRef.current - 1000`, with a null
`updated_at` treated as not fresh. -/
def isFreshCompletion (trigger : Int) (r : SyncStatusResponse) : Bool :=
  match r.updated_at with
  | some t => t ≥ trigger - 1000
  | none => false

/-- The part of `pollStatus` after the staleness pre-check: `setStatus(response)`,
`pollCounterRef.current++`, then branch on `sync_status` (COMPLETED with the
freshness gate, FAILED stops polling, anything else keeps polling at the
adaptive interval). -/
def handleValidated (trigger : Int) (counter : Nat) (r : SyncStatusResponse) : PollStep :=
  let counter' := counter + 1
  match r.sync_status with
  | .COMPLETED =>
      if isFreshCompletion trigger r then
        { displayed := some r, counter := counter', action := .scheduleComplete 1500 }
      else
        { displayed := some r, counter := counter'
          action := .continuePolling (adaptiveInterval counter') }
  | .FAILED =>
      { displayed := some r, counter := counter', action := .stopPolling }
  | _ =>
      { displayed := some r, counter := counter'
        action := .continuePolling (adaptiveInterval counter') }

/-- Handling of a successful status fetch in `pollStatus` (lines 77-145):
first the staleness pre-check (a non-null `updated_at` strictly below
`trigger - 5000` is ignored and a 1000 ms retry is scheduled, without touching
`setStatus` or the counter), then the validated handling. -/
def handleResponse (trigger : Int) (counter : Nat) (r : SyncStatusResponse) : PollStep :=
  match r.updated_at with
  | some t =>
      if t < trigger - 5000 then
        { displayed := none, counter := counter, action := .continuePolling 1000 }
      else
        handleValidated trigger counter r
  | none => handleValidated trigger counter r

/-- Handling of a network/parse error in `pollStatus` (the catch block,
lines 146-152): increment the counter and keep polling at the adaptive
interval. -/
def handleFetchError (counter : Nat) : PollStep :=
  { displayed := none, counter := counter + 1
    action := .continuePolling (adaptiveInterval (counter + 1)) }

/-- One poll of `/api/insights/status` either yields a snapshot or fails. -/
inductive PollOutcome
  | ok (r : SyncStatusResponse)
  | fetchError
deriving DecidableEq, Repr

/-- One iteration of `pollStatus` on a given outcome. -/
def stepPoll (trigger : Int) (counter : Nat) : PollOutcome → PollStep
  | .ok r => handleResponse trigger counter r
  | .fetchError => handleFetchError counter

/-- Whether a timer action schedules another run of `pollStatus`. -/
def PollAction.continues : PollAction → Bool
  | .continuePolling _ => true
  | _ => false

/-- The sequence of timer actions taken by the poller when the environment
answers successive polls with the given outcomes.  Polling proceeds to the
next outcome only while the previous action scheduled another poll. -/
def pollTrace (trigger : Int) : Nat → List PollOutcome → List PollAction
  | _, [] => []
  | counter, o :: rest =>
      let s := stepPoll trigger counter o
      s.action :: (if s.action.continues then pollTrace trigger s.counter rest else [])

/-- Number of completion callbacks scheduled along a trace. -/
def completionCount (tr : List PollAction) : Nat :=
  tr.countP fun a => match a with
    | .scheduleComplete _ => true
    | _ => false

/-- The fixed error text rendered by the modal when `sync_status = FAILED`
(lines 255-262); the snapshot field `last_sync_error` is not used. -/
def genericFailureMessage : String :=
  "We encountered an issue generating your insights. Please try again or contact support if the problem persists."

/-- The error message the modal shows for a snapshot: the fixed generic text
when the status is FAILED, nothing otherwise. -/
def renderedFailureMessage (status : SyncStatusResponse) : Option String :=
  if status.sync_status = .FAILED then some genericFailureMessage else none

/- ## HTTP client: apiRequest (src/unnamed/part_001, the centralized API client) -/

/-- An HTTP response as seen by `apiRequest`: its status code and the text of
its body (standing for both the JSON payload and the error text). -/
structure HttpResponse where
  status : Nat
  body : String
deriving DecidableEq, Repr

/-- The `Response.ok` flag of the fetch API: a status in the range 200-299. -/
def HttpResponse.isOk (r : HttpResponse) : Bool :=
  200 ≤ r.status && r.status ≤ 299

/-- How a call of `apiRequest` ends: a parsed 2xx body, a thrown
`APIError(message, status, statusText)` for a non-2xx status, or the
refresh-failed path that sets `window.location.href` to the login route and
throws `APIError(Unauthorized, 401, Unauthorized)`. -/
inductive ApiOutcome
  | success (body : String)
  | apiError (message : String) (status : Nat)
  | redirectAndThrow
deriving DecidableEq, Repr

/-- The observable effect of one `apiRequest` call: its outcome (`none` when the
environment lists run out, i.e. the call is still pending), together with the
number of HTTP requests answered and the number of `refreshSession` calls made. -/
structure ApiRun where
  result : Option ApiOutcome
  requests : Nat
  refreshes : Nat
deriving DecidableEq, Repr

/-- Shallow embedding of `apiRequest`: the environment supplies the response
to each successive HTTP request in `responses`, and the result of each
successive `supabase.auth.refreshSession()` call in `refreshes` (`true` when a
session comes back).  On a 401 with a successful refresh the source calls
`apiRequest` again on the same endpoint and options, which here recurses on
the remaining environment lists - there is no guard limiting the number of
refresh-and-retry cycles. -/
def apiRequest : List HttpResponse → List Bool → ApiRun
  | [], _ => { result := none, requests := 0, refreshes := 0 }
  | resp :: rest, refreshes =>
      if resp.isOk then
        { result := some (.success resp.body), requests := 1, refreshes := 0 }
      else if resp.status = 401 then
        match refreshes with
        | [] => { result := none, requests := 1, refreshes := 0 }
        | b :: bs =>
            if b then
              let r := apiRequest rest bs
              { result := r.result, requests := r.requests + 1, refreshes := r.refreshes + 1 }
            else
              { result := some .redirectAndThrow, requests := 1, refreshes := 1 }
      else
        { result := some (.apiError (if resp.body = "" then "API request failed" else resp.body)
            resp.status)
          requests := 1, refreshes := 0 }

/- ## Cache stores (src/stores/settingsStore.ts, src/unnamed/part_003 overview
store, src/unnamed/part_005 health-score store, src/stores/adminStore.ts,
src/unnamed/part_004 insights store) -/

/-- The cache TTL shared by the settings, overview and health-score stores:
20 minutes in milliseconds. -/
def CACHE_TTL : Int := 20 * 60 * 1000

/-- The cached part of a store: last payload, loading flag, fetch timestamp and
error message (the `CachedResource` shape). -/
structure CacheState (α : Type) where
  data : Option α
  isLoading : Bool
  lastFetched : Option Int
  error : Option String
deriving DecidableEq, Repr

/-- A store together with its module-level `pendingFetchPromise` reference
(`pending = true` while a fetch task is in flight and unresolved) and a count
of the network requests issued so far. -/
structure StoreWorld (α : Type) where
  cache : CacheState α
  pending : Bool
  networkCalls : Nat
deriving DecidableEq, Repr

/-- What the synchronous prefix of a store fetch did: returned the cached value,
joined the in-flight promise, or started a new fetch task. -/
inductive FetchDecision
  | useCache
  | joinPending
  | startFetch
deriving DecidableEq, Repr

/-- The cache-validity test of the stores: data present, a fetch timestamp
present, and `Date.now() - lastFetched < CACHE_TTL`. -/
def cacheFresh (now : Int) (c : CacheState α) : Bool :=
  match c.data, c.lastFetched with
  | some _, some lf => now - lf < CACHE_TTL
  | _, _ => false

/-- Synchronous prefix of `fetchSettings` (settings store, no force parameter):
return on fresh cache, join `pendingFetchPromise` when set, otherwise mark
loading, set the pending reference and issue the network request. -/
def fetchSettingsStart (now : Int) (w : StoreWorld α) : StoreWorld α × FetchDecision :=
  if cacheFresh now w.cache then (w, .useCache)
  else if w.pending then (w, .joinPending)
  else
    ({ cache := { w.cache with isLoading := true, error := none }
       pending := true, networkCalls := w.networkCalls + 1 }, .startFetch)

/-- Synchronous prefix of `fetchOverview` / `fetchHealthScore`
(`forceRefresh` parameter, default false): the TTL check is skipped when
forcing, but the in-flight-promise check is not. -/
def fetchWithForceStart (now : Int) (force : Bool) (w : StoreWorld α) :
    StoreWorld α × FetchDecision :=
  if !force && cacheFresh now w.cache then (w, .useCache)
  else if w.pending then (w, .joinPending)
  else
    ({ cache := { w.cache with isLoading := true, error := none }
       pending := true, networkCalls := w.networkCalls + 1 }, .startFetch)

/-- Resolution of a store fetch task: on success store the payload with a fresh
timestamp, on failure store the error message; the `finally` block clears the
pending reference in both cases. -/
def fetchResolve (now : Int) (result : Except String α) (w : StoreWorld α) : StoreWorld α :=
  match result with
  | .ok d =>
      { w with
        cache := { data := some d, isLoading := false, lastFetched := some now, error := none }
        pending := false }
  | .error e =>
      { w with
        cache := { w.cache with isLoading := false, error := some e }
        pending := false }

/-- The dashboard part of the admin store (`useAdminStore`). -/
structure AdminDashWorld (α : Type) where
  dashboard : Option α
  isDashboardLoading : Bool
  dashboardError : Option String
  networkCalls : Nat
deriving DecidableEq, Repr

/-- Synchronous prefix of `fetchDashboard` (admin store): it has no cache
check and no pending-promise reference, so every call marks loading and issues
a network request. -/
def fetchDashboardStart (w : AdminDashWorld α) : AdminDashWorld α :=
  { w with isDashboardLoading := true, dashboardError := none
           networkCalls := w.networkCalls + 1 }

/-- The insights store (`useInsightsStore`, src/unnamed/part_004). -/
structure InsightsListWorld (α : Type) where
  insights : List α
  isLoading : Bool
  error : Option String
  networkCalls : Nat
deriving DecidableEq, Repr

/-- Synchronous prefix of `fetchInsights` (insights store): return when data is
already present, otherwise mark loading and issue a network request; there is
no in-flight-promise reference. -/
def fetchInsightsStart (w : InsightsListWorld α) : InsightsListWorld α × FetchDecision :=
  if w.insights.length > 0 then (w, .useCache)
  else
    ({ w with isLoading := true, error := none, networkCalls := w.networkCalls + 1 },
     .startFetch)

/- ## Optimistic insight mutations (src/unnamed/part_010 overview page,
src/unnamed/part_003 overview store updateInsight) -/

/-- A `supporting_numbers` entry; its value is a string or a number. -/
structure SupportingNumber where
  label : String
  value : String ⊕ Int
deriving DecidableEq, Repr

/-- An insight as held in the overview store. -/
structure Insight where
  insight_id : String
  insight_type : String
  title : String
  severity : String
  confidence_level : String
  summary : String
  why_it_matters : String
  recommended_actions : List String
  supporting_numbers : List SupportingNumber
  data_notes : Option String
  generated_at : String
  is_acknowledged : Bool
  is_marked_done : Bool
deriving DecidableEq, Repr

/-- A `Partial<Insight>` as used at the `updateInsight` call sites, which only
ever patch the two mutation flags. -/
structure InsightPatch where
  is_acknowledged : Option Bool := none
  is_marked_done : Option Bool := none
deriving DecidableEq, Repr

/-- Object spread `{ ...insight, ...updates }` restricted to the patched
fields. -/
def applyPatch (i : Insight) (p : InsightPatch) : Insight :=
  { i with
    is_acknowledged := p.is_acknowledged.getD i.is_acknowledged
    is_marked_done := p.is_marked_done.getD i.is_marked_done }

/-- The store action `updateInsight`: map over the cached collection, patching
the insights whose id matches and keeping every other insight unchanged. -/
def updateInsightList (insights : List Insight) (id : String) (p : InsightPatch) :
    List Insight :=
  insights.map fun i => if i.insight_id = id then applyPatch i p else i

/-- Toast severities used by the mutation handlers. -/
inductive ToastKind
  | success
  | error
deriving DecidableEq, Repr

/-- The observable result of a mutation handler: the cached collection
afterwards and the toast shown (none when the `actionLoadingId` guard made the
handler return early). -/
structure MutationResult where
  insights : List Insight
  toast : Option (String × ToastKind)
deriving DecidableEq, Repr

/-- `handleResolve`: guard on `actionLoadingId`, apply the optimistic patch
`is_marked_done := true`, then on PATCH success keep it with a success toast,
and on failure apply the constant inverse patch `is_marked_done := false` with
an error toast. -/
def handleResolve (actionLoadingId : Option String) (insights : List Insight)
    (id : String) (patchOk : Bool) : MutationResult :=
  match actionLoadingId with
  | some _ => { insights := insights, toast := none }
  | none =>
      let optimistic := updateInsightList insights id { is_marked_done := some true }
      if patchOk then
        { insights := optimistic, toast := some ("Insight marked as resolved", .success) }
      else
        { insights := updateInsightList optimistic id { is_marked_done := some false }
          toast := some ("Failed to resolve insight", .error) }

/-- `handleGotIt`: the same pattern for the `is_acknowledged` flag. -/
def handleGotIt (actionLoadingId : Option String) (insights : List Insight)
    (id : String) (patchOk : Bool) : MutationResult :=
  match actionLoadingId with
  | some _ => { insights := insights, toast := none }
  | none =>
      let optimistic := updateInsightList insights id { is_acknowledged := some true }
      if patchOk then
        { insights := optimistic, toast := some ("Insight acknowledged", .success) }
      else
        { insights := updateInsightList optimistic id { is_acknowledged := some false }
          toast := some ("Failed to acknowledge insight", .error) }

/- ## Concrete instances used by the counterexamples and witnesses -/

/-- A COMPLETED snapshot whose timestamp (500 ms) is far before a trigger at
10000 ms. -/
def staleCompletedSnapshot : SyncStatusResponse :=
  { sync_status := .COMPLETED, sync_step := none, last_sync_error := none
    updated_at := some 500 }

/-- A COMPLETED snapshot with a null `updated_at`. -/
def nullTimestampCompleted : SyncStatusResponse :=
  { sync_status := .COMPLETED, sync_step := none, last_sync_error := none
    updated_at := none }

/-- The first snapshot of the example scenario of the spec: COMPLETED with
`updated_at` at 500 ms. -/
def scenarioSnapshot1 : SyncStatusResponse :=
  { sync_status := .COMPLETED, sync_step := some .COMPLETED, last_sync_error := none
    updated_at := some 500 }

/-- A COMPLETED snapshot inside the stale-completed window of a trigger at
10000 ms: 10000 - 5000 ≤ 7000 < 10000 - 1000. -/
def windowSnapshot : SyncStatusResponse :=
  { sync_status := .COMPLETED, sync_step := some .COMPLETED, last_sync_error := none
    updated_at := some 7000 }

/-- A fresh COMPLETED snapshot for a trigger at 10000 ms. -/
def freshSnapshot : SyncStatusResponse :=
  { sync_status := .COMPLETED, sync_step := some .COMPLETED, last_sync_error := none
    updated_at := some 12040 }

/-- An IN_PROGRESS snapshot whose timestamp (100 ms) fails the 5-second
staleness pre-check of a trigger at 10000 ms. -/
def staleInProgressSnapshot : SyncStatusResponse :=
  { sync_status := .IN_PROGRESS, sync_step := some .IMPORTING, last_sync_error := none
    updated_at := some 100 }

/-- A FAILED snapshot carrying a backend error message and a fresh
timestamp. -/
def failedSnapshot : SyncStatusResponse :=
  { sync_status := .FAILED, sync_step := none, last_sync_error := some "Xero token expired"
    updated_at := some 99999 }

/-- A FAILED snapshot whose timestamp fails the staleness pre-check of a
trigger at 10000 ms. -/
def staleFailedSnapshot : SyncStatusResponse :=
  { sync_status := .FAILED, sync_step := none, last_sync_error := some "boom"
    updated_at := some 100 }

/-- A 401 response. -/
def resp401 : HttpResponse := { status := 401, body := "Unauthorized" }

/-- A successful response. -/
def resp200 : HttpResponse := { status := 200, body := "payload" }

/-- An admin store in its initial state. -/
def adminWorld0 : AdminDashWorld Unit :=
  { dashboard := none, isDashboardLoading := false, dashboardError := none
    networkCalls := 0 }

/-- An insights store in its initial (empty) state. -/
def insightsWorld0 : InsightsListWorld Unit :=
  { insights := [], isLoading := false, error := none, networkCalls := 0 }

/-- A settings-pattern store in its initial state. -/
def emptyStoreWorld : StoreWorld Unit :=
  { cache := { data := none, isLoading := false, lastFetched := none, error := none }
    pending := false, networkCalls := 0 }

/-- A store with a fetch in flight: `pendingFetchPromise` is set and one
request has already been issued. -/
def inFlightWorld : StoreWorld Unit :=
  { cache := { data := none, isLoading := true, lastFetched := none, error := none }
    pending := true, networkCalls := 1 }

/-- A store holding a freshly fetched payload. -/
def freshStoreWorld : StoreWorld Unit :=
  { cache := { data := some (), isLoading := false, lastFetched := some 1000, error := none }
    pending := false, networkCalls := 1 }

/-- An insight the user has already acknowledged. -/
def acknowledgedInsight : Insight :=
  { insight_id := "ins-1", insight_type := "cash_runway", title := "Runway is short"
    severity := "medium", confidence_level := "high", summary := "summary text"
    why_it_matters := "why text", recommended_actions := [], supporting_numbers := []
    data_notes := none, generated_at := "2025-01-01T00:00:00Z"
    is_acknowledged := true, is_marked_done := false }

/-- An insight with both mutation flags still false. -/
def pendingInsight : Insight :=
  { insight_id := "ins-2", insight_type := "cash_pressure", title := "Bills due soon"
    severity := "high", confidence_level := "medium", summary := "summary text"
    why_it_matters := "why text", recommended_actions := ["Review cash position"]
    supporting_numbers := [{ label := "Amount", value := .inr 1200 }]
    data_notes := none, generated_at := "2025-01-02T00:00:00Z"
    is_acknowledged := false, is_marked_done := false }

/- ## Shared lemmas -/

/-- An action that schedules another poll is not a completion. -/
theorem continues_not_complete {a : PollAction} (h : a.continues = true) :
    ∀ d, a ≠ .scheduleComplete d := by
  intro d hd
  subst hd
  simp [PollAction.continues] at h

/-- Setting `is_marked_done` and then applying the inverse patch restores an
insight whose flag was false. -/
theorem applyPatch_done_roundtrip (a : Insight) (h : a.is_marked_done = false) :
    applyPatch (applyPatch a { is_marked_done := some true })
      { is_marked_done := some false } = a := by
  cases a
  simp only at h
  subst h
  rfl

/-- Setting `is_acknowledged` and then applying the inverse patch restores an
insight whose flag was false. -/
theorem applyPatch_ack_roundtrip (a : Insight) (h : a.is_acknowledged = false) :
    applyPatch (applyPatch a { is_acknowledged := some true })
      { is_acknowledged := some false } = a := by
  cases a
  simp only at h
  subst h
  rfl

/-- The optimistic `is_marked_done` patch followed by its inverse restores the
collection, provided the targeted insights had the flag false. -/
theorem revert_done_restores (insights : List Insight) (id : String)
    (h : ∀ i ∈ insights, i.insight_id = id → i.is_marked_done = false) :
    updateInsightList (updateInsightList insights id { is_marked_done := some true })
      id { is_marked_done := some false } = insights := by
  induction insights with
  | nil => rfl
  | cons a rest ih =>
      have ha : a.insight_id = id → a.is_marked_done = false :=
        fun hid => h a (by simp) hid
      have hrest := ih (fun i hi hid => h i (by simp [hi]) hid)
      simp only [updateInsightList, List.map_cons] at hrest ⊢
      refine congrArg₂ List.cons ?_ hrest
      by_cases hid : a.insight_id = id
      · rw [if_pos hid]
        have hid2 : (applyPatch a { is_marked_done := some true }).insight_id = id := hid
        rw [if_pos hid2]
        exact applyPatch_done_roundtrip a (ha hid)
      · rw [if_neg hid, if_neg hid]

/-- The optimistic `is_acknowledged` patch followed by its inverse restores the
collection, provided the targeted insights had the flag false. -/
theorem revert_ack_restores (insights : List Insight) (id : String)
    (h : ∀ i ∈ insights, i.insight_id = id → i.is_acknowledged = false) :
    updateInsightList (updateInsightList insights id { is_acknowledged := some true })
      id { is_acknowledged := some false } = insights := by
  induction insights with
  | nil => rfl
  | cons a rest ih =>
      have ha : a.insight_id = id → a.is_acknowledged = false :=
        fun hid => h a (by simp) hid
      have hrest := ih (fun i hi hid => h i (by simp [hi]) hid)
      simp only [updateInsightList, List.map_cons] at hrest ⊢
      refine congrArg₂ List.cons ?_ hrest
      by_cases hid : a.insight_id = id
      · rw [if_pos hid]
        have hid2 : (applyPatch a { is_acknowledged := some true }).insight_id = id := hid
        rw [if_pos hid2]
        exact applyPatch_ack_roundtrip a (ha hid)
      · rw [if_neg hid, if_neg hid]

/-- `updateInsightList` never touches an insight whose id does not match. -/
theorem updateInsightList_getElem_other (insights : List Insight) (id : String)
    (p : InsightPatch) (k : Nat) (i : Insight)
    (hk : insights[k]? = some i) (hne : i.insight_id ≠ id) :
    (updateInsightList insights id p)[k]? = some i := by
  unfold updateInsightList
  rw [List.getElem?_map, hk]
  simp [hne]

/- ## Claim theorems -/

/-- C1: a snapshot with `sync_status = COMPLETED` and a non-null `updated_at`
earlier than the trigger timestamp minus the 1000 ms completion-acceptance
margin never fires the completion callback; `pollStatus` schedules another
poll instead (either the 1000 ms retry of the 5-second staleness pre-check or
the adaptive interval of the stale-completed branch). -/
theorem stale_completed_keeps_polling (trigger : Int) (counter : Nat)
    (r : SyncStatusResponse) (t : Int)
    (hs : r.sync_status = .COMPLETED) (hu : r.updated_at = some t)
    (hstale : t < trigger - 1000) :
    (stepPoll trigger counter (.ok r)).action.continues = true ∧
    ∀ d, (stepPoll trigger counter (.ok r)).action ≠ .scheduleComplete d := by
  obtain ⟨ss, st, er, ua⟩ := r
  subst hs
  subst hu
  have hmain : (stepPoll trigger counter (.ok ⟨.COMPLETED, st, er, some t⟩)).action.continues
      = true := by
    by_cases h5 : t < trigger - 5000
    · simp [stepPoll, handleResponse, h5, PollAction.continues]
    · have hf : isFreshCompletion trigger ⟨.COMPLETED, st, er, some t⟩ = false := by
        simp only [isFreshCompletion, decide_eq_false_iff_not]
        omega
      simp [stepPoll, handleResponse, h5, handleValidated, hf, PollAction.continues]
  exact ⟨hmain, continues_not_complete hmain⟩

/-- Witness for C1 at a concrete input: trigger 10000, first poll, snapshot
COMPLETED with `updated_at = 500`. -/
theorem stale_completed_keeps_polling_witness :
    (stepPoll 10000 0 (.ok staleCompletedSnapshot)).action.continues = true ∧
    ∀ d, (stepPoll 10000 0 (.ok staleCompletedSnapshot)).action ≠ .scheduleComplete d :=
  stale_completed_keeps_polling 10000 0 staleCompletedSnapshot 500 rfl rfl (by decide)

/-- C7: a snapshot with `sync_status = COMPLETED` and non-null `updated_at` at
or after the trigger timestamp minus 1000 ms makes `pollStatus` schedule the
completion callback after the fixed 1500 ms delay; the trace ends there, so no
further poll is scheduled and exactly one completion is ever scheduled in the
remainder of the run, whatever outcomes the environment would have supplied
next. -/
theorem fresh_completed_fires_once (trigger : Int) (counter : Nat)
    (r : SyncStatusResponse) (t : Int) (rest : List PollOutcome)
    (hs : r.sync_status = .COMPLETED) (hu : r.updated_at = some t)
    (hfresh : trigger - 1000 ≤ t) :
    (stepPoll trigger counter (.ok r)).action = .scheduleComplete 1500 ∧
    pollTrace trigger counter (.ok r :: rest) = [.scheduleComplete 1500] ∧
    completionCount (pollTrace trigger counter (.ok r :: rest)) = 1 := by
  obtain ⟨ss, st, er, ua⟩ := r
  subst hs
  subst hu
  have h5 : ¬ t < trigger - 5000 := by omega
  have hf : isFreshCompletion trigger ⟨.COMPLETED, st, er, some t⟩ = true := by
    simp only [isFreshCompletion, decide_eq_true_eq]
    omega
  have hstep : stepPoll trigger counter (.ok ⟨.COMPLETED, st, er, some t⟩)
      = { displayed := some ⟨.COMPLETED, st, er, some t⟩, counter := counter + 1
          action := .scheduleComplete 1500 } := by
    simp [stepPoll, handleResponse, h5, handleValidated, hf]
  have hact : (stepPoll trigger counter (.ok ⟨.COMPLETED, st, er, some t⟩)).action
      = .scheduleComplete 1500 := by rw [hstep]
  have htr : pollTrace trigger counter (.ok ⟨.COMPLETED, st, er, some t⟩ :: rest)
      = [.scheduleComplete 1500] := by
    simp only [pollTrace]
    rw [hstep]
    simp [PollAction.continues]
  refine ⟨hact, htr, ?_⟩
  rw [htr]
  rfl

/-- Witness for C7 at a concrete input: trigger 10000, snapshot COMPLETED with
`updated_at = 12040`, no further outcomes. -/
theorem fresh_completed_fires_once_witness :
    (stepPoll 10000 1 (.ok freshSnapshot)).action = .scheduleComplete 1500 ∧
    pollTrace 10000 1 [.ok freshSnapshot] = [.scheduleComplete 1500] ∧
    completionCount (pollTrace 10000 1 [.ok freshSnapshot]) = 1 :=
  fresh_completed_fires_once 10000 1 freshSnapshot 12040 [] rfl rfl (by decide)

/-- C10: a snapshot with `sync_status = COMPLETED` and `updated_at = null` is
treated as an unverifiable completion: the completion callback is not
scheduled and another poll is scheduled at the adaptive interval. -/
theorem null_timestamp_completed_keeps_polling (trigger : Int) (counter : Nat)
    (r : SyncStatusResponse)
    (hs : r.sync_status = .COMPLETED) (hu : r.updated_at = none) :
    (stepPoll trigger counter (.ok r)).action
      = .continuePolling (adaptiveInterval (counter + 1)) ∧
    ∀ d, (stepPoll trigger counter (.ok r)).action ≠ .scheduleComplete d := by
  obtain ⟨ss, st, er, ua⟩ := r
  subst hs
  subst hu
  have hf : isFreshCompletion trigger ⟨.COMPLETED, st, er, none⟩ = false := rfl
  constructor
  · simp [stepPoll, handleResponse, handleValidated, hf]
  · intro d hd
    simp [stepPoll, handleResponse, handleValidated, hf] at hd

/-- Witness for C10 at a concrete input: trigger 10000, first poll, snapshot
COMPLETED with null `updated_at`; the next poll comes after 2000 ms. -/
theorem null_timestamp_completed_keeps_polling_witness :
    (stepPoll 10000 0 (.ok nullTimestampCompleted)).action
      = .continuePolling (adaptiveInterval 1) ∧
    ∀ d, (stepPoll 10000 0 (.ok nullTimestampCompleted)).action ≠ .scheduleComplete d :=
  null_timestamp_completed_keeps_polling 10000 0 nullTimestampCompleted rfl rfl

/-- C2, counterexample: with the trigger at t = 1000, a first snapshot
COMPLETED with `updated_at = 500` satisfies the freshness gate
(500 ≥ 1000 - 1000), so `pollStatus` schedules the completion callback after
1500 ms instead of treating the snapshot as stale and polling again after
2000 ms. -/
theorem scenario_first_snapshot_completes :
    (stepPoll 1000 0 (.ok scenarioSnapshot1)).action = .scheduleComplete 1500 ∧
    (stepPoll 1000 0 (.ok scenarioSnapshot1)).action ≠ .continuePolling 2000 := by
  decide

/-- C2, amended: the stale-then-fresh scenario holds when the first COMPLETED
snapshot falls in the stale-completed window `[trigger - 5000, trigger - 1000)`.
With the trigger at t = 10000, a first snapshot COMPLETED with
`updated_at = 7000` is ignored and the next poll is scheduled after 2000 ms;
a second snapshot COMPLETED with `updated_at = 12040 ≥ 10000 - 1000` then
schedules the completion callback 1500 ms after it is received, and the trace
ends. -/
theorem scenario_amended_trace :
    pollTrace 10000 0 [.ok windowSnapshot, .ok freshSnapshot]
      = [.continuePolling 2000, .scheduleComplete 1500] := by
  decide

/-- C9, counterexample: a snapshot rejected by the 5-second staleness
pre-check schedules the next poll after 1000 ms, not at the 2000 ms adaptive
interval the claim states for the first three polls: trigger 10000, first
poll, IN_PROGRESS snapshot with `updated_at = 100`. -/
theorem stale_precheck_uses_fast_retry :
    (stepPoll 10000 0 (.ok staleInProgressSnapshot)).action = .continuePolling 1000 ∧
    (stepPoll 10000 0 (.ok staleInProgressSnapshot)).action ≠ .continuePolling 2000 := by
  decide

/-- C9, amended: after a transient fetch error, after a stale COMPLETED
snapshot that passes the 5-second pre-check, and after an IN_PROGRESS or IDLE
snapshot that passes it, the next poll is scheduled at the adaptive interval
(2000 ms while fewer than 3 snapshots or errors have been processed, 10000 ms
thereafter); but a snapshot whose non-null `updated_at` is before
`trigger - 5000` instead schedules the next poll after 1000 ms and leaves the
poll counter unchanged. -/
theorem poll_interval_schedule (trigger : Int) (counter : Nat) (r : SyncStatusResponse) :
    ((stepPoll trigger counter .fetchError).action
        = .continuePolling (adaptiveInterval (counter + 1))) ∧
    (∀ t, r.updated_at = some t → t < trigger - 5000 →
        (stepPoll trigger counter (.ok r)).action = .continuePolling 1000 ∧
        (stepPoll trigger counter (.ok r)).counter = counter) ∧
    ((r.sync_status = .IN_PROGRESS ∨ r.sync_status = .IDLE) →
        (∀ t, r.updated_at = some t → trigger - 5000 ≤ t) →
        (stepPoll trigger counter (.ok r)).action
          = .continuePolling (adaptiveInterval (counter + 1))) ∧
    (r.sync_status = .COMPLETED → isFreshCompletion trigger r = false →
        (∀ t, r.updated_at = some t → trigger - 5000 ≤ t) →
        (stepPoll trigger counter (.ok r)).action
          = .continuePolling (adaptiveInterval (counter + 1))) := by
  obtain ⟨ss, st, er, ua⟩ := r
  refine ⟨rfl, ?_, ?_, ?_⟩
  · intro t hu hlt
    subst hu
    have h5 : t < trigger - 5000 := hlt
    constructor
    · simp [stepPoll, handleResponse, h5]
    · simp [stepPoll, handleResponse, h5]
  · intro hss hge
    have step : stepPoll trigger counter (.ok ⟨ss, st, er, ua⟩)
        = handleValidated trigger counter ⟨ss, st, er, ua⟩ := by
      cases ua with
      | none => rfl
      | some t =>
          have h5 : ¬ t < trigger - 5000 := by
            have := hge t rfl
            omega
          simp [stepPoll, handleResponse, h5]
    rw [step]
    rcases hss with h | h <;> subst h <;> rfl
  · intro hss hfr hge
    subst hss
    have step : stepPoll trigger counter (.ok ⟨.COMPLETED, st, er, ua⟩)
        = handleValidated trigger counter ⟨.COMPLETED, st, er, ua⟩ := by
      cases ua with
      | none => rfl
      | some t =>
          have h5 : ¬ t < trigger - 5000 := by
            have := hge t rfl
            omega
          simp [stepPoll, handleResponse, h5]
    rw [step]
    simp [handleValidated, hfr]

/-- Witness for the amended C9 at concrete inputs: the stale pre-check branch
at trigger 10000, counter 0, IN_PROGRESS snapshot with `updated_at = 100`. -/
theorem poll_interval_schedule_witness :
    (stepPoll 10000 0 (.ok staleInProgressSnapshot)).action = .continuePolling 1000 ∧
    (stepPoll 10000 0 (.ok staleInProgressSnapshot)).counter = 0 :=
  (poll_interval_schedule 10000 0 staleInProgressSnapshot).2.1 100 rfl (by decide)

/-- C5, counterexample: for a FAILED snapshot carrying
`last_sync_error = "Xero token expired"`, the modal does not show that
message: it renders the fixed generic text; moreover a FAILED snapshot whose
`updated_at` fails the 5-second staleness pre-check does not stop polling -
the next poll is scheduled after 1000 ms. -/
theorem failed_shows_generic_and_can_keep_polling :
    renderedFailureMessage failedSnapshot ≠ some "Xero token expired" ∧
    failedSnapshot.last_sync_error = some "Xero token expired" ∧
    (stepPoll 10000 0 (.ok staleFailedSnapshot)).action = .continuePolling 1000 := by
  decide

/-- C5, amended: on a FAILED snapshot that passes the staleness pre-check
(null `updated_at`, or `updated_at ≥ trigger - 5000`), polling stops with no
new timer, and the error message shown to the user is always the fixed
generic fallback string, regardless of `last_sync_error`; a FAILED snapshot
rejected by the pre-check is ignored and polling continues. -/
theorem failed_stops_and_shows_generic (trigger : Int) (counter : Nat)
    (r : SyncStatusResponse)
    (hs : r.sync_status = .FAILED)
    (hpre : ∀ t, r.updated_at = some t → trigger - 5000 ≤ t) :
    (stepPoll trigger counter (.ok r)).action = .stopPolling ∧
    renderedFailureMessage r = some genericFailureMessage := by
  obtain ⟨ss, st, er, ua⟩ := r
  subst hs
  constructor
  · cases ua with
    | none => rfl
    | some t =>
        have h5 : ¬ t < trigger - 5000 := by
          have := hpre t rfl
          omega
        simp [stepPoll, handleResponse, h5, handleValidated]
  · rfl

/-- Witness for the amended C5 at a concrete input: trigger 10000, FAILED
snapshot with `updated_at = 99999` and a backend error message. -/
theorem failed_stops_and_shows_generic_witness :
    (stepPoll 10000 0 (.ok failedSnapshot)).action = .stopPolling ∧
    renderedFailureMessage failedSnapshot = some genericFailureMessage :=
  failed_stops_and_shows_generic 10000 0 failedSnapshot rfl (by decide)

/-- C3, counterexample: a request whose retry also receives a 401 triggers a
second refresh-and-retry cycle - with responses 401, 401, 200 and both
refreshes succeeding, `apiRequest` performs two session refreshes and still
succeeds, refuting that no request triggers more than one
refresh-and-retry cycle. -/
theorem apiRequest_two_refresh_cycles :
    (apiRequest [resp401, resp401, resp200] [true, true]).refreshes = 2 ∧
    (apiRequest [resp401, resp401, resp200] [true, true]).result
      = some (.success "payload") := by
  decide

/-- C3, amended: each 401 response triggers exactly one session refresh
attempt; when the refresh succeeds the whole request is retried recursively
with no bound on the number of cycles - n consecutive 401 responses with
succeeding refreshes cause n refreshes before the request succeeds - and when
the refresh fails the client redirects to the login route and throws, after
exactly one refresh. -/
theorem apiRequest_refresh_behavior (n : Nat) (resp : HttpResponse)
    (rest : List HttpResponse) (bs : List Bool) (h401 : resp.status = 401) :
    ((apiRequest (List.replicate n resp401 ++ [resp200])
        (List.replicate n true)).refreshes = n ∧
     (apiRequest (List.replicate n resp401 ++ [resp200])
        (List.replicate n true)).result = some (.success "payload")) ∧
    ((apiRequest (resp :: rest) (false :: bs)).result = some .redirectAndThrow ∧
     (apiRequest (resp :: rest) (false :: bs)).refreshes = 1) := by
  have hnotOk : resp.isOk = false := by
    simp [HttpResponse.isOk, h401]
  constructor
  · induction n with
    | zero => exact ⟨rfl, rfl⟩
    | succ m ih =>
        have hrepl : List.replicate (m + 1) resp401 ++ [resp200]
            = resp401 :: (List.replicate m resp401 ++ [resp200]) := by
          simp [List.replicate_succ]
        have hreplb : List.replicate (m + 1) true = true :: List.replicate m true := by
          simp [List.replicate_succ]
        rw [hrepl, hreplb]
        have hstep : apiRequest (resp401 :: (List.replicate m resp401 ++ [resp200]))
            (true :: List.replicate m true)
            = { result := (apiRequest (List.replicate m resp401 ++ [resp200])
                    (List.replicate m true)).result
                requests := (apiRequest (List.replicate m resp401 ++ [resp200])
                    (List.replicate m true)).requests + 1
                refreshes := (apiRequest (List.replicate m resp401 ++ [resp200])
                    (List.replicate m true)).refreshes + 1 } := by
          rfl
        rw [hstep]
        exact ⟨by rw [ih.1], ih.2⟩
  · constructor
    · simp [apiRequest, hnotOk, h401]
    · simp [apiRequest, hnotOk, h401]

/-- Witness for the amended C3 at concrete inputs: two cycles succeed with two
refreshes, and a failed refresh redirects after one refresh. -/
theorem apiRequest_refresh_behavior_witness :
    ((apiRequest (List.replicate 2 resp401 ++ [resp200])
        (List.replicate 2 true)).refreshes = 2 ∧
     (apiRequest (List.replicate 2 resp401 ++ [resp200])
        (List.replicate 2 true)).result = some (.success "payload")) ∧
    ((apiRequest [resp401] [false]).result = some .redirectAndThrow ∧
     (apiRequest [resp401] [false]).refreshes = 1) :=
  apiRequest_refresh_behavior 2 resp401 [] [] rfl

/-- C4, counterexample: the admin store has no de-duplication - two
`fetchDashboard` calls made while the first is still in flight issue two
network requests, not one. -/
theorem admin_concurrent_fetches_duplicate :
    (fetchDashboardStart (fetchDashboardStart adminWorld0)).networkCalls = 2 ∧
    (fetchDashboardStart (fetchDashboardStart adminWorld0)).networkCalls ≠ 1 := by
  decide

/-- C4, amended: for the stores built on a shared `pendingFetchPromise`
(settings, overview, health-score), two `fetch` calls made concurrently on a
store with no cached data - the second before the first resolves - issue
exactly one network request: the first starts the fetch, the second joins the
in-flight promise.  The admin store (`fetchDashboard`) and the insights store
(`fetchInsights`) have no in-flight-promise de-duplication, so for them each
concurrent call that passes their cache guard issues its own request. -/
theorem dedup_stores_single_request (α : Type) (now1 now2 : Int) (w : StoreWorld α)
    (hpending : w.pending = false) (hdata : w.cache.data = none) :
    (fetchSettingsStart now1 w).2 = .startFetch ∧
    (fetchSettingsStart now2 (fetchSettingsStart now1 w).1).2 = .joinPending ∧
    (fetchSettingsStart now2 (fetchSettingsStart now1 w).1).1.networkCalls
      = w.networkCalls + 1 ∧
    (fetchWithForceStart now1 false w).2 = .startFetch ∧
    (fetchWithForceStart now2 false (fetchWithForceStart now1 false w).1).2
      = .joinPending ∧
    (fetchWithForceStart now2 false (fetchWithForceStart now1 false w).1).1.networkCalls
      = w.networkCalls + 1 := by
  obtain ⟨⟨d, il, lf, er⟩, p, nc⟩ := w
  simp only at hpending hdata
  subst hpending
  subst hdata
  have hfresh1 : cacheFresh now1 (⟨none, il, lf, er⟩ : CacheState α) = false := rfl
  have hfresh2 : cacheFresh now2 (⟨none, true, lf, none⟩ : CacheState α) = false := rfl
  refine ⟨?_, ?_, ?_, ?_, ?_, ?_⟩ <;>
    simp [fetchSettingsStart, fetchWithForceStart, hfresh1, hfresh2]

/-- Witness for the amended C4 at a concrete input: an empty settings-pattern
store, both calls at time 0. -/
theorem dedup_stores_single_request_witness :
    (fetchSettingsStart 0 emptyStoreWorld).2 = .startFetch ∧
    (fetchSettingsStart 0 (fetchSettingsStart 0 emptyStoreWorld).1).2 = .joinPending ∧
    (fetchSettingsStart 0 (fetchSettingsStart 0 emptyStoreWorld).1).1.networkCalls
      = emptyStoreWorld.networkCalls + 1 ∧
    (fetchWithForceStart 0 false emptyStoreWorld).2 = .startFetch ∧
    (fetchWithForceStart 0 false (fetchWithForceStart 0 false emptyStoreWorld).1).2
      = .joinPending ∧
    (fetchWithForceStart 0 false
        (fetchWithForceStart 0 false emptyStoreWorld).1).1.networkCalls
      = emptyStoreWorld.networkCalls + 1 :=
  dedup_stores_single_request Unit 0 0 emptyStoreWorld rfl rfl

/-- C6, counterexample: a fetch with `forceRefresh = true` made while another
fetch is in flight joins the shared in-flight promise and issues no new
network request, refuting that a forced fetch always issues one. -/
theorem force_refresh_joins_inflight :
    (fetchWithForceStart 0 true inFlightWorld).2 = .joinPending ∧
    (fetchWithForceStart 0 true inFlightWorld).1.networkCalls
      = inFlightWorld.networkCalls := by
  decide

/-- C6, amended: a fetch with `forceRefresh = false` made when cached data
exists and `now - lastFetched < CACHE_TTL` returns the cached value and issues
no network request; a fetch with `forceRefresh = true` bypasses the TTL check
and issues a network request whenever no fetch is in flight, but when a fetch
is already in flight it joins the shared in-flight promise and issues no new
request. -/
theorem force_refresh_behavior (α : Type) (now : Int) (w : StoreWorld α) :
    (cacheFresh now w.cache = true →
        fetchWithForceStart now false w = (w, .useCache)) ∧
    (w.pending = false →
        (fetchWithForceStart now true w).2 = .startFetch ∧
        (fetchWithForceStart now true w).1.networkCalls = w.networkCalls + 1) ∧
    (w.pending = true →
        (fetchWithForceStart now true w).2 = .joinPending ∧
        (fetchWithForceStart now true w).1.networkCalls = w.networkCalls) := by
  refine ⟨?_, ?_, ?_⟩
  · intro hfr
    simp [fetchWithForceStart, hfr]
  · intro hp
    constructor <;> simp [fetchWithForceStart, hp]
  · intro hp
    constructor <;> simp [fetchWithForceStart, hp]

/-- Witness for the amended C6 at concrete inputs: a fresh cache is used
without a request, and a forced fetch on an idle store issues one. -/
theorem force_refresh_behavior_witness :
    fetchWithForceStart 1500 false freshStoreWorld = (freshStoreWorld, .useCache) ∧
    (fetchWithForceStart 1500 true freshStoreWorld).2 = .startFetch ∧
    (fetchWithForceStart 1500 true freshStoreWorld).1.networkCalls
      = freshStoreWorld.networkCalls + 1 :=
  ⟨(force_refresh_behavior Unit 1500 freshStoreWorld).1 (by decide),
   (force_refresh_behavior Unit 1500 freshStoreWorld).2.1 rfl⟩

/-- C8, counterexample: the failure path writes the constant inverse patch,
not the pre-mutation value - acknowledging an insight that was already
acknowledged and having the PATCH fail leaves its flag false, although the
flag was true before the mutation. -/
theorem failed_patch_overwrites_prior_flag :
    acknowledgedInsight.is_acknowledged = true ∧
    (handleGotIt none [acknowledgedInsight] "ins-1" false).insights
      = [{ acknowledgedInsight with is_acknowledged := false }] := by
  decide

/-- C8, amended: the flag is set optimistically in the cached collection
before the PATCH; on success the optimistic collection is kept with a success
toast and no further fetch; on failure the handler applies the constant
inverse patch (flag := false) and shows an error toast, which restores the
pre-mutation collection exactly when the targeted insights had the flag false
before the mutation (as the UI guarantees for resolve and as holds in the
normal acknowledge flow); insights whose id differs from the mutated one are
unchanged in every case. -/
theorem optimistic_mutation_contract (insights : List Insight) (id : String)
    (hmd : ∀ i ∈ insights, i.insight_id = id → i.is_marked_done = false)
    (hak : ∀ i ∈ insights, i.insight_id = id → i.is_acknowledged = false) :
    (handleResolve none insights id true).insights
      = updateInsightList insights id { is_marked_done := some true } ∧
    (handleResolve none insights id true).toast
      = some ("Insight marked as resolved", .success) ∧
    (handleResolve none insights id false).insights = insights ∧
    (handleResolve none insights id false).toast
      = some ("Failed to resolve insight", .error) ∧
    (handleGotIt none insights id true).insights
      = updateInsightList insights id { is_acknowledged := some true } ∧
    (handleGotIt none insights id false).insights = insights ∧
    (handleGotIt none insights id false).toast
      = some ("Failed to acknowledge insight", .error) ∧
    ∀ pok : Bool, ∀ k : Nat, ∀ i : Insight,
      insights[k]? = some i → i.insight_id ≠ id →
        (handleResolve none insights id pok).insights[k]? = some i ∧
        (handleGotIt none insights id pok).insights[k]? = some i := by
  refine ⟨rfl, rfl, ?_, rfl, rfl, ?_, rfl, ?_⟩
  · show updateInsightList (updateInsightList insights id { is_marked_done := some true })
        id { is_marked_done := some false } = insights
    exact revert_done_restores insights id hmd
  · show updateInsightList (updateInsightList insights id { is_acknowledged := some true })
        id { is_acknowledged := some false } = insights
    exact revert_ack_restores insights id hak
  · intro pok k i hk hne
    cases pok with
    | false =>
        constructor
        · show (updateInsightList
              (updateInsightList insights id { is_marked_done := some true })
              id { is_marked_done := some false })[k]? = some i
          exact updateInsightList_getElem_other _ id _ k i
            (updateInsightList_getElem_other insights id _ k i hk hne) hne
        · show (updateInsightList
              (updateInsightList insights id { is_acknowledged := some true })
              id { is_acknowledged := some false })[k]? = some i
          exact updateInsightList_getElem_other _ id _ k i
            (updateInsightList_getElem_other insights id _ k i hk hne) hne
    | true =>
        constructor
        · show (updateInsightList insights id { is_marked_done := some true })[k]?
              = some i
          exact updateInsightList_getElem_other insights id _ k i hk hne
        · show (updateInsightList insights id { is_acknowledged := some true })[k]?
              = some i
          exact updateInsightList_getElem_other insights id _ k i hk hne

/-- Witness for the amended C8 at a concrete input: a singleton collection
holding an insight with both flags false, mutated under a failing PATCH. -/
theorem optimistic_mutation_contract_witness :
    (handleResolve none [pendingInsight] "ins-2" false).insights = [pendingInsight] ∧
    (handleGotIt none [pendingInsight] "ins-2" false).insights = [pendingInsight] :=
  ⟨(optimistic_mutation_contract [pendingInsight] "ins-2"
      (by decide) (by decide)).2.2.1,
   (optimistic_mutation_contract [pendingInsight] "ins-2"
      (by decide) (by decide)).2.2.2.2.2.1⟩

end Neura
